import Mathlib

/-!
Verification of the export-and-validate pipeline of `classifier/learn/exporter.py`
(class `Exporter`): a shallow embedding of the `export`, `_convert_to_ort`,
`validate_onnx` and `get_notes` methods, together with theorems settling the
spec's claims about them.

Modelling conventions:
* Python floats are modelled by `ℚ` (all quantities involved — error rates,
  file sizes in MB — are finite decimal-ish numbers; no claim depends on
  binary floating-point rounding).
* The filesystem of the export directory is a duplicate-free list of abstract
  file names (`FS`); external tools (the PyTorch exporter, the FP16 converter,
  the quantizer, the ORT conversion subprocess) are modelled by success flags
  in an environment record (`Env`), with the files they write on success taken
  from the source's expectations.
* A Python exception raised by a stage is modelled by the surrounding
  computation stopping exactly where the source's `try`/`except` structure
  says it stops: `Exporter.export` has no handler around the FP16 conversion
  and the two quantization calls, `_convert_to_ort` catches
  `CalledProcessError` from its subprocess, and `validate_onnx` catches
  exceptions inside its batch loop (and `break`s).
-/

namespace Rails49

/-- The three packaged precision variants produced by `Exporter.export`. -/
inductive Variant
  | fp32
  | fp16
  | int8
deriving DecidableEq, Repr

/-- Files of interest in the export directory, as named in `exporter.py`:
`model_<v>.onnx`, `model_pre.onnx`, the ORT tool's generated
`<stem>.with_runtime_opt.ort` and
`<stem>.required_operators.with_runtime_opt.config`, the canonical
`<stem>.ort` and `<stem>_operators.config`, and the tool's unoptimized
`<stem>.required_operators.config`. -/
inductive MFile
  | onnx (v : Variant)
  | preOnnx
  | genOrt (v : Variant)
  | genConfig (v : Variant)
  | ortFile (v : Variant)
  | opConfig (v : Variant)
  | unoptConfig (v : Variant)
deriving DecidableEq, Repr

/-- The export directory's contents (duplicate-free by construction). -/
abbrev FS := List MFile

/-- Writing a file: a no-op when it is already present. -/
def FS.insertFile (fs : FS) (f : MFile) : FS :=
  if f ∈ fs then fs else f :: fs

/-- `Path.unlink` / deletion of one file (files are never duplicated, so
filtering is deletion). -/
def FS.removeFile (fs : FS) (f : MFile) : FS :=
  fs.filter (fun g => decide (g ≠ f))

/-- `Path.exists`. -/
def FS.hasFile (fs : FS) (f : MFile) : Bool :=
  decide (f ∈ fs)

/-! ## The batch loop of `validate_onnx` (one evaluation split)

Each batch either yields per-sample match flags (`pred_idxs == labels`), or
raises inside the `try` block (`BatchOutcome.fail`).  On an exception the
source prints the error and `break`s out of the loop. -/

/-- One batch of the validation dataloader: inference either succeeds with a
list of per-sample correctness flags, or raises an exception. -/
inductive BatchOutcome
  | ok (hits : List Bool)
  | fail
deriving DecidableEq, Repr

/-- `(pred_idxs == labels.cpu().numpy()).sum()`. -/
def countTrue (l : List Bool) : Nat :=
  (l.filter id).length

/-- The `for batch in dl` loop of `validate_onnx`, accumulating
`correct` and `total`; an exception breaks out of the loop, keeping the
counts accumulated so far. -/
def runSplitLoop : List BatchOutcome → Nat → Nat → Nat × Nat
  | [], correct, total => (correct, total)
  | BatchOutcome.ok ms :: rest, correct, total =>
      runSplitLoop rest (correct + countTrue ms) (total + ms.length)
  | BatchOutcome.fail :: _, correct, total => (correct, total)

/-- `err = 1.0 - (correct / total if total > 0 else 0)`. -/
def splitErr (batches : List BatchOutcome) : ℚ :=
  let p := runSplitLoop batches 0 0
  1 - (if 0 < p.2 then (p.1 : ℚ) / (p.2 : ℚ) else 0)

/-- The result dict of `validate_onnx` (keys `train_err`, `valid_err`). -/
structure VRes where
  train_err : ℚ
  valid_err : ℚ
deriving DecidableEq, Repr

/-- `Exporter.validate_onnx`: returns `None` when the package file does not
exist, otherwise evaluates both splits (train = `ds_idx` 0, valid =
`ds_idx` 1) with the batch loop above. -/
def validate_onnx (modelPathExists : Bool) (trainBatches validBatches : List BatchOutcome) :
    Option VRes :=
  if !modelPathExists then none
  else some { train_err := splitErr trainBatches, valid_err := splitErr validBatches }

/-! ## The metrics dict assembled by `Exporter.export` -/

/-- The result dict of the native `Exporter.validate` path (fastai
`Learner.validate` on both splits). -/
structure NativeRes where
  train_err : ℚ
  valid_err : ℚ
  train_loss : ℚ
  valid_loss : ℚ
deriving DecidableEq, Repr

/-- An entry of `metrics["results"]`: the PyTorch baseline carries losses,
a packaged variant only the two error rates. -/
inductive ResEntry
  | native (r : NativeRes)
  | packaged (r : VRes)
deriving DecidableEq, Repr

/-- The `metrics` dict of `Exporter.export` (dicts as association lists,
in insertion order). -/
structure Metrics where
  train_samples : Nat
  valid_samples : Nat
  results : List (String × ResEntry)
  error_rates : List (String × ℚ)
  sizes_mb : List (String × ℚ)
deriving DecidableEq, Repr

/-- The display name used for each packaged variant in `Exporter.export`. -/
def variantName : Variant → String
  | Variant.fp32 => "ORT (FP32)"
  | Variant.fp16 => "ORT (FP16)"
  | Variant.int8 => "ORT (Int8)"

/-- Environment of one `Exporter.export` run: success flags of the external
steps and the data that validation observes.  A `false` flag means that the
corresponding external call raises (or, for `ortConvertOk`, that the
subprocess exits non-zero). -/
structure Env where
  fp32ExportOk : Bool
  fp16ConvertOk : Bool
  quantPreOk : Bool
  quantizeOk : Bool
  ortConvertOk : Variant → Bool
  pytorchRes : NativeRes
  pthSizeMb : ℚ
  ortSizeMb : Variant → ℚ
  trainBatches : Variant → List BatchOutcome
  validBatches : Variant → List BatchOutcome
  trainSamples : Nat
  validSamples : Nat

/-- One iteration of the validation loop of `Exporter.export`
(`for ort_path, variant in [...]`): a non-`None` result adds the variant to
all three maps, a `None` result leaves the metrics unchanged. -/
def metricsStep (env : Env) (fs : FS) (m : Metrics) (v : Variant) : Metrics :=
  match validate_onnx (fs.hasFile (MFile.ortFile v)) (env.trainBatches v) (env.validBatches v) with
  | none => m
  | some r =>
      { m with
        results := m.results ++ [(variantName v, ResEntry.packaged r)]
        error_rates := m.error_rates ++ [(variantName v, r.valid_err)]
        sizes_mb := m.sizes_mb ++ [(variantName v, env.ortSizeMb v)] }

/-- Step 5 of `Exporter.export`: the PyTorch baseline row followed by the
three packaged variants in order FP32, FP16, Int8. -/
def buildMetrics (env : Env) (fs : FS) : Metrics :=
  let base : Metrics :=
    { train_samples := env.trainSamples
      valid_samples := env.validSamples
      results := [("PyTorch (FP32)", ResEntry.native env.pytorchRes)]
      error_rates := [("PyTorch (FP32)", env.pytorchRes.valid_err)]
      sizes_mb := [("PyTorch (FP32)", env.pthSizeMb)] }
  metricsStep env fs
    (metricsStep env fs (metricsStep env fs base Variant.fp32) Variant.fp16) Variant.int8

/-- Module-level constant `KEEP_ONNX = False` of `exporter.py`. -/
def KEEP_ONNX : Bool := false

/-- `Exporter._convert_to_ort` for one ONNX file.  A failing subprocess
(`CalledProcessError`) is caught: the method prints and returns, leaving the
directory untouched.  On success the external tool writes the optimized
`.with_runtime_opt.ort`, its operator config, the default unoptimized `.ort`
(at the target path) and the unoptimized operator config; the method then
renames the optimized outputs to the canonical names, deletes the
unoptimized config, and (since `KEEP_ONNX` is false) deletes the source
`.onnx` file. -/
def convert_to_ort (convOk : Bool) (v : Variant) (fs : FS) : FS :=
  if !convOk then fs
  else
    let fs := ((((fs.insertFile (MFile.genOrt v)).insertFile (MFile.genConfig v)).insertFile
        (MFile.ortFile v)).insertFile (MFile.unoptConfig v))
    let fs := if fs.hasFile (MFile.genOrt v) then
        (fs.removeFile (MFile.genOrt v)).insertFile (MFile.ortFile v) else fs
    let fs := if fs.hasFile (MFile.genConfig v) then
        (fs.removeFile (MFile.genConfig v)).insertFile (MFile.opConfig v) else fs
    let fs := if fs.hasFile (MFile.unoptConfig v) then fs.removeFile (MFile.unoptConfig v) else fs
    let fs := if !KEEP_ONNX && fs.hasFile (MFile.onnx v) then fs.removeFile (MFile.onnx v) else fs
    fs

/-- Stages of `Exporter.export` whose exceptions are not caught anywhere in
the method, so a failure there aborts the whole run. -/
inductive FailStage
  | baselineExport
  | fp16Convert
  | quantPre
  | quantizeStep
deriving DecidableEq, Repr

/-- Result of one `Exporter.export` run: an uncaught exception (`failed`) or
the returned metrics (`done`). -/
inductive Outcome
  | failed (st : FailStage)
  | done (m : Metrics)
deriving DecidableEq, Repr

/-- `true` exactly when the run returned normally. -/
def isDone : Outcome → Bool
  | Outcome.failed _ => false
  | Outcome.done _ => true

/-- The key list of `metrics["results"]` of a completed run (empty for a
failed run, which returns no metrics). -/
def doneResultsKeys : Outcome → List String
  | Outcome.failed _ => []
  | Outcome.done m => m.results.map Prod.fst

/-- The key list of `metrics["error_rates"]` of a completed run. -/
def doneErrKeys : Outcome → List String
  | Outcome.failed _ => []
  | Outcome.done m => m.error_rates.map Prod.fst

/-- The key list of `metrics["sizes_mb"]` of a completed run. -/
def doneSizeKeys : Outcome → List String
  | Outcome.failed _ => []
  | Outcome.done m => m.sizes_mb.map Prod.fst

/-- `Exporter.export`: the export directory is cleared and recreated, the
FP32 baseline is exported, converted to FP16, quantized to Int8 (with the
`model_pre.onnx` intermediate deleted on the success path), every still
existing ONNX file is converted to ORT format, and the metrics are built by
validating the baseline and each packaged variant.  Exceptions of the first
four steps are uncaught and abort the run at that point. -/
def export_pipeline (env : Env) : FS × Outcome :=
  let fs : FS := []
  if !env.fp32ExportOk then (fs, Outcome.failed FailStage.baselineExport) else
  let fs := fs.insertFile (MFile.onnx Variant.fp32)
  if !env.fp16ConvertOk then (fs, Outcome.failed FailStage.fp16Convert) else
  let fs := fs.insertFile (MFile.onnx Variant.fp16)
  if !env.quantPreOk then (fs, Outcome.failed FailStage.quantPre) else
  let fs := fs.insertFile MFile.preOnnx
  if !env.quantizeOk then (fs, Outcome.failed FailStage.quantizeStep) else
  let fs := fs.insertFile (MFile.onnx Variant.int8)
  let fs := if fs.hasFile MFile.preOnnx then fs.removeFile MFile.preOnnx else fs
  let fs := [Variant.fp32, Variant.fp16, Variant.int8].foldl
    (fun fs v =>
      if fs.hasFile (MFile.onnx v) then convert_to_ort (env.ortConvertOk v) v fs else fs) fs
  (fs, Outcome.done (buildMetrics env fs))

/-- The packaged variants whose `.ort` file exists, in pipeline order — the
variants that can appear in the report besides the PyTorch baseline. -/
def reportedVariants (fs : FS) : List String :=
  ([Variant.fp32, Variant.fp16, Variant.int8].filter
    (fun v => fs.hasFile (MFile.ortFile v))).map variantName

/-- The export directory just before ORT conversion on a run where the four
uncaught stages all succeed: the three ONNX files, the `model_pre.onnx`
intermediate already deleted. -/
def preFoldFS : FS :=
  [MFile.onnx Variant.int8, MFile.onnx Variant.fp16, MFile.onnx Variant.fp32]

/-- The export directory after the ORT conversion loop of such a run. -/
def postConvertFS (env : Env) : FS :=
  [Variant.fp32, Variant.fp16, Variant.int8].foldl
    (fun fs v =>
      if fs.hasFile (MFile.onnx v) then convert_to_ort (env.ortConvertOk v) v fs else fs)
    preFoldFS

/-! ## `Exporter.get_notes`

Python's `sorted` on strings is lexicographic comparison of code points,
modelled by the executable comparator `strLe` below and insertion sort. -/

/-- Lexicographic (code point) comparison of char lists, `x ≤ y`. -/
def charListLe : List Char → List Char → Bool
  | [], _ => true
  | _ :: _, [] => false
  | a :: as, b :: bs => if a < b then true else if b < a then false else charListLe as bs

/-- Python string comparison `a <= b` (lexicographic by code point). -/
def strLe (a b : String) : Bool :=
  charListLe a.data b.data

/-- `strLe` as a relation, for use with `List.insertionSort`. -/
def strLeP (a b : String) : Prop :=
  strLe a b = true

instance : DecidableRel strLeP := fun a b =>
  inferInstanceAs (Decidable (strLe a b = true))

/-- `sorted(metrics["error_rates"].keys())`. -/
def sortedModels (m : Metrics) : List String :=
  List.insertionSort strLeP (m.error_rates.map Prod.fst)

/-- Round half to even, the rounding used by Python's fixed-point float
formatting. -/
def roundHalfEven (q : ℚ) : ℤ :=
  let f := ⌊q⌋
  let r := q - (f : ℚ)
  if r < 1 / 2 then f
  else if 1 / 2 < r then f + 1
  else if 2 ∣ f then f else f + 1

/-- The two decimal digits of `k % 100`, zero-padded. -/
def twoDigits (k : Nat) : String :=
  String.mk [Nat.digitChar (k / 10 % 10), Nat.digitChar (k % 10)]

/-- Python `f"{q:.2f}"` for `0 ≤ q`: round `q * 100` half-to-even and print
with two digits after the decimal point. -/
def formatFixed2Nonneg (q : ℚ) : String :=
  let n := (roundHalfEven (q * 100)).toNat
  toString (n / 100) ++ "." ++ twoDigits (n % 100)

/-- Python `f"{q:.2f}"`. -/
def formatFixed2 (q : ℚ) : String :=
  if q < 0 then "-" ++ formatFixed2Nonneg (-q) else formatFixed2Nonneg q

/-- Python `f"{q:.2%}"`: multiply by 100, format with two decimals, append
a percent sign. -/
def formatPercent2 (q : ℚ) : String :=
  formatFixed2 (q * 100) ++ "%"

/-- `err = metrics["error_rates"][model]` — `model` is always drawn from the
keys of `error_rates`, so the lookup succeeds and the default is never used. -/
def rowErr (m : Metrics) (model : String) : ℚ :=
  ((m.error_rates.lookup model).getD 0)

/-- `size = metrics["sizes_mb"].get(model, 0)` — a missing size defaults to 0. -/
def rowSize (m : Metrics) (model : String) : ℚ :=
  ((m.sizes_mb.lookup model).getD 0)

/-- One table row `f"| {model} | {err:.2%} | {size:.2f} |"`. -/
def noteRow (m : Metrics) (model : String) : String :=
  "| " ++ model ++ " | " ++ formatPercent2 (rowErr m model) ++ " | " ++
    formatFixed2 (rowSize m model) ++ " |"

/-- The first three lines of the notes: title, table head, separator. -/
def noteHeader (modelName : String) : List String :=
  ["# " ++ modelName ++ " Exported Model\n",
   "| Model | Error Rate | Size (MB) |",
   "| --- | --- | --- |"]

/-- The list of lines that `Exporter.get_notes` accumulates in `notes` and
joins with newlines: header, one row per sorted model name, then the dataset
info block (training samples, validation samples, labels — in that order). -/
def noteLines (modelName : String) (labels : List String) (m : Metrics) : List String :=
  (noteHeader modelName ++ (sortedModels m).map (noteRow m))
  ++ ["\n**Dataset Info:**",
      "- Training Samples: " ++ toString m.train_samples,
      "- Validation Samples: " ++ toString m.valid_samples,
      "- Labels: " ++ String.intercalate ", " labels]

/-- `Exporter.get_notes`. -/
def get_notes (modelName : String) (labels : List String) (m : Metrics) : String :=
  String.intercalate "\n" (noteLines modelName labels m)

/-! ## Concrete environments used by witnesses and counterexamples -/

/-- A run in which every external step succeeds. -/
def goodEnv : Env where
  fp32ExportOk := true
  fp16ConvertOk := true
  quantPreOk := true
  quantizeOk := true
  ortConvertOk := fun _ => true
  pytorchRes := { train_err := 1/20, valid_err := 2/25, train_loss := 1/10, valid_loss := 3/20 }
  pthSizeMb := 45
  ortSizeMb := fun _ => 23
  trainBatches := fun _ => [BatchOutcome.ok [true, true, true, false]]
  validBatches := fun _ => [BatchOutcome.ok [true, false]]
  trainSamples := 200
  validSamples := 50

/-- A run in which the FP16 conversion raises. -/
def fp16FailEnv : Env :=
  { goodEnv with fp16ConvertOk := false }

/-- A run in which `quantize_dynamic` raises. -/
def quantFailEnv : Env :=
  { goodEnv with quantizeOk := false }

/-- A run in which only the Int8 ORT conversion subprocess fails. -/
def int8ConvFailEnv : Env :=
  { goodEnv with
    ortConvertOk := fun v => match v with
      | Variant.int8 => false
      | _ => true }

/-- Two-variant metrics, variants inserted in one order. -/
def metricsA : Metrics where
  train_samples := 200
  valid_samples := 50
  results := []
  error_rates := [("ORT (FP32)", 1/10), ("ORT (FP16)", 1/5)]
  sizes_mb := [("ORT (FP32)", 23), ("ORT (FP16)", 12)]

/-- The same map contents as `metricsA`, inserted in the other order. -/
def metricsB : Metrics where
  train_samples := 200
  valid_samples := 50
  results := []
  error_rates := [("ORT (FP16)", 1/5), ("ORT (FP32)", 1/10)]
  sizes_mb := [("ORT (FP16)", 12), ("ORT (FP32)", 23)]

/-- A metrics dict with a variant present in `error_rates` but absent from
`sizes_mb`. -/
def metricsC : Metrics where
  train_samples := 10
  valid_samples := 5
  results := []
  error_rates := [("ORT (FP16)", 1/20)]
  sizes_mb := []

/-- A metrics dict as in the spec's example scenario (baseline row only). -/
def exampleMetrics : Metrics where
  train_samples := 200
  valid_samples := 50
  results := [("PyTorch (FP32)", ResEntry.native
    { train_err := 1/20, valid_err := 2/25, train_loss := 1/10, valid_loss := 3/20 })]
  error_rates := [("PyTorch (FP32)", 2/25)]
  sizes_mb := [("PyTorch (FP32)", 45)]

/-! ## Counting bounds for the batch loop -/

theorem countTrue_le (l : List Bool) : countTrue l ≤ l.length :=
  List.length_filter_le _ _

theorem runSplitLoop_le (bs : List BatchOutcome) :
    ∀ c t : Nat, c ≤ t → (runSplitLoop bs c t).1 ≤ (runSplitLoop bs c t).2 := by
  induction bs with
  | nil => intro c t h; exact h
  | cons b rest ih =>
    intro c t h
    cases b with
    | ok ms => exact ih _ _ (Nat.add_le_add h (countTrue_le ms))
    | fail => exact h

theorem splitErr_nonneg (bs : List BatchOutcome) : 0 ≤ splitErr bs := by
  unfold splitErr
  set p := runSplitLoop bs 0 0 with hp
  have hle : p.1 ≤ p.2 := runSplitLoop_le bs 0 0 (Nat.le_refl 0)
  by_cases hpos : 0 < p.2
  · simp only [hpos, if_true]
    have h2 : (0 : ℚ) < (p.2 : ℚ) := by exact_mod_cast hpos
    have : (p.1 : ℚ) / (p.2 : ℚ) ≤ 1 := by
      rw [div_le_one h2]
      exact_mod_cast hle
    linarith
  · simp only [hpos, if_false]
    norm_num

theorem splitErr_le_one (bs : List BatchOutcome) : splitErr bs ≤ 1 := by
  unfold splitErr
  set p := runSplitLoop bs 0 0 with hp
  by_cases hpos : 0 < p.2
  · simp only [hpos, if_true]
    have h2 : (0 : ℚ) < (p.2 : ℚ) := by exact_mod_cast hpos
    have : 0 ≤ (p.1 : ℚ) / (p.2 : ℚ) := by positivity
    linarith
  · simp only [hpos, if_false]
    norm_num

theorem splitErr_of_total_zero (bs : List BatchOutcome) (h : (runSplitLoop bs 0 0).2 = 0) :
    splitErr bs = 1 := by
  unfold splitErr
  simp [h]

/-- C1: for every evaluation split processed by `validate_onnx`, the reported
error rate lies in `[0, 1]`, and a split with zero total evaluated samples
reports error exactly `1` (no division by zero occurs). -/
theorem validate_onnx_error_in_unit_interval
    (ex : Bool) (tb vb : List BatchOutcome) (r : VRes)
    (h : validate_onnx ex tb vb = some r) :
    (0 ≤ r.train_err ∧ r.train_err ≤ 1) ∧ (0 ≤ r.valid_err ∧ r.valid_err ≤ 1) ∧
    ((runSplitLoop tb 0 0).2 = 0 → r.train_err = 1) ∧
    ((runSplitLoop vb 0 0).2 = 0 → r.valid_err = 1) := by
  cases ex with
  | false => simp [validate_onnx] at h
  | true =>
    simp only [validate_onnx, Bool.not_true, Bool.false_eq_true, if_false,
      Option.some.injEq] at h
    subst h
    refine ⟨⟨splitErr_nonneg tb, splitErr_le_one tb⟩,
      ⟨splitErr_nonneg vb, splitErr_le_one vb⟩,
      fun h0 => splitErr_of_total_zero tb h0,
      fun h0 => splitErr_of_total_zero vb h0⟩

/-- Witness for C1 at a concrete input: the train split raises on its first
batch (total stays `0`, error is exactly `1`), the valid split scores one of
two samples. -/
theorem validate_onnx_error_in_unit_interval_witness :
    (0 ≤ (VRes.mk 1 (1/2)).train_err ∧ (VRes.mk 1 (1/2)).train_err ≤ 1) ∧
    (0 ≤ (VRes.mk 1 (1/2)).valid_err ∧ (VRes.mk 1 (1/2)).valid_err ≤ 1) ∧
    ((runSplitLoop [BatchOutcome.fail] 0 0).2 = 0 → (VRes.mk 1 (1/2)).train_err = 1) ∧
    ((runSplitLoop [BatchOutcome.ok [true, false]] 0 0).2 = 0 → (VRes.mk 1 (1/2)).valid_err = 1) :=
  validate_onnx_error_in_unit_interval true [BatchOutcome.fail]
    [BatchOutcome.ok [true, false]] (VRes.mk 1 (1/2))
    (by norm_num [validate_onnx, splitErr, runSplitLoop, countTrue])

/-! ## C2: an inference exception inside the batch loop -/

theorem runSplitLoop_append_fail (pre post : List BatchOutcome)
    (h : BatchOutcome.fail ∉ pre) :
    ∀ c t : Nat, runSplitLoop (pre ++ BatchOutcome.fail :: post) c t = runSplitLoop pre c t := by
  induction pre with
  | nil => intro c t; rfl
  | cons b rest ih =>
    intro c t
    cases b with
    | ok ms =>
      have : BatchOutcome.fail ∉ rest := fun hm => h (List.mem_cons_of_mem _ hm)
      simp only [List.cons_append, runSplitLoop]
      exact ih this _ _
    | fail => exact absurd (List.mem_cons_self _ _) h

/-- C2, corrected: an inference exception inside the batch loop of one split
aborts only the remaining batches of that split and is not re-raised
(`validate_onnx` still returns a result dict), and the other split is still
processed normally; however, the counts accumulated before the exception are
kept, not dropped — the split's error rate is computed from them. -/
theorem validate_onnx_exception_keeps_partial_counts
    (pre post validBatches : List BatchOutcome)
    (h : BatchOutcome.fail ∉ pre) :
    validate_onnx true (pre ++ BatchOutcome.fail :: post) validBatches =
      some (VRes.mk (splitErr pre) (splitErr validBatches)) := by
  unfold validate_onnx
  simp only [Bool.not_true, Bool.false_eq_true, if_false, Option.some.injEq]
  unfold splitErr
  rw [runSplitLoop_append_fail pre post h]

/-- Witness for C2's amended statement: one successful batch (1 of 4
correct), then an exception; the reported train error is `3/4`, computed
from the retained partial counts, and the valid split is unaffected. -/
theorem validate_onnx_exception_keeps_partial_counts_witness :
    validate_onnx true
        ([BatchOutcome.ok [true, false, false, false]] ++ BatchOutcome.fail :: [])
        [BatchOutcome.ok [true]] =
      some (VRes.mk (splitErr [BatchOutcome.ok [true, false, false, false]])
        (splitErr [BatchOutcome.ok [true]])) :=
  validate_onnx_exception_keeps_partial_counts
    [BatchOutcome.ok [true, false, false, false]] [] [BatchOutcome.ok [true]]
    (by simp)

/-- Counterexample to C2 as stated: with one successful batch (1 of 4
correct) before the exception, the split's partial counts are not dropped —
the reported error is `3/4`, not the `1` that dropped counts (`correct =
total = 0`) would give. -/
theorem validate_onnx_partial_counts_dropped_counterexample :
    validate_onnx true [BatchOutcome.ok [true, false, false, false], BatchOutcome.fail] [] =
      some (VRes.mk (3/4) 1) ∧
    (3/4 : ℚ) ≠ 1 ∧
    runSplitLoop [BatchOutcome.ok [true, false, false, false], BatchOutcome.fail] 0 0 ≠ (0, 0) := by
  refine ⟨?_, by norm_num, by decide⟩
  norm_num [validate_onnx, splitErr, runSplitLoop, countTrue]

/-! ## Filesystem transport lemmas -/

theorem FS.hasFile_iff (fs : FS) (f : MFile) : fs.hasFile f = true ↔ f ∈ fs := by
  simp [FS.hasFile]

theorem FS.mem_insertFile (fs : FS) (f g : MFile) :
    g ∈ fs.insertFile f ↔ g = f ∨ g ∈ fs := by
  unfold FS.insertFile
  split
  · constructor
    · exact Or.inr
    · rintro (rfl | hg)
      · assumption
      · assumption
  · simp [List.mem_cons]

theorem FS.mem_removeFile (fs : FS) (f g : MFile) :
    g ∈ fs.removeFile f ↔ g ∈ fs ∧ g ≠ f := by
  simp [FS.removeFile, List.mem_filter]

theorem FS.hasFile_insertFile_self (fs : FS) (f : MFile) :
    (fs.insertFile f).hasFile f = true := by
  simp [FS.hasFile, FS.mem_insertFile]

theorem FS.hasFile_insertFile_of_ne (fs : FS) (f g : MFile) (h : g ≠ f) :
    (fs.insertFile f).hasFile g = fs.hasFile g := by
  simp [FS.hasFile, FS.mem_insertFile, h]

theorem FS.hasFile_removeFile_of_ne (fs : FS) (f g : MFile) (h : g ≠ f) :
    (fs.removeFile f).hasFile g = fs.hasFile g := by
  simp [FS.hasFile, FS.mem_removeFile, h]

/-- `_convert_to_ort` only touches the six per-variant files of its own
variant: any other file's existence is unchanged. -/
theorem convert_to_ort_hasFile_of_ne (ok : Bool) (v : Variant) (fs : FS) (g : MFile)
    (h1 : g ≠ MFile.genOrt v) (h2 : g ≠ MFile.genConfig v) (h3 : g ≠ MFile.ortFile v)
    (h4 : g ≠ MFile.opConfig v) (h5 : g ≠ MFile.unoptConfig v) (h6 : g ≠ MFile.onnx v) :
    (convert_to_ort ok v fs).hasFile g = fs.hasFile g := by
  cases ok with
  | false => rfl
  | true =>
    simp only [convert_to_ort, Bool.not_true, Bool.false_eq_true, if_false, KEEP_ONNX,
      Bool.not_false, Bool.true_and]
    split <;> split <;> split <;> split <;>
      simp [FS.hasFile_insertFile_of_ne, FS.hasFile_removeFile_of_ne, h1, h2, h3, h4, h5, h6]

/-- On a successful conversion the canonical `.ort` file exists afterwards. -/
theorem convert_to_ort_hasFile_ortFile (v : Variant) (fs : FS) :
    (convert_to_ort true v fs).hasFile (MFile.ortFile v) = true := by
  simp only [convert_to_ort, Bool.not_true, Bool.false_eq_true, if_false, KEEP_ONNX,
    Bool.not_false, Bool.true_and]
  split <;> split <;> split <;> split <;>
    simp_all [FS.hasFile_insertFile_of_ne, FS.hasFile_removeFile_of_ne,
      FS.hasFile_insertFile_self]

/-- A failed conversion subprocess leaves the directory untouched (the method
logs and returns). -/
theorem convert_to_ort_failed (v : Variant) (fs : FS) :
    convert_to_ort false v fs = fs := rfl

/-! ## The orchestrator run -/

/-- When the four uncaught stages succeed, the run returns normally with the
metrics built over the post-conversion directory. -/
theorem export_pipeline_done (env : Env)
    (h1 : env.fp32ExportOk = true) (h2 : env.fp16ConvertOk = true)
    (h3 : env.quantPreOk = true) (h4 : env.quantizeOk = true) :
    export_pipeline env =
      (postConvertFS env, Outcome.done (buildMetrics env (postConvertFS env))) := by
  have hX : FS.insertFile (FS.insertFile (FS.insertFile (FS.insertFile ([] : FS)
      (MFile.onnx Variant.fp32)) (MFile.onnx Variant.fp16)) MFile.preOnnx)
      (MFile.onnx Variant.int8) =
      [MFile.onnx Variant.int8, MFile.preOnnx, MFile.onnx Variant.fp16,
       MFile.onnx Variant.fp32] := by decide
  have hrm : (if FS.hasFile [MFile.onnx Variant.int8, MFile.preOnnx, MFile.onnx Variant.fp16,
        MFile.onnx Variant.fp32] MFile.preOnnx then
      FS.removeFile [MFile.onnx Variant.int8, MFile.preOnnx, MFile.onnx Variant.fp16,
        MFile.onnx Variant.fp32] MFile.preOnnx
      else [MFile.onnx Variant.int8, MFile.preOnnx, MFile.onnx Variant.fp16,
        MFile.onnx Variant.fp32]) = preFoldFS := by decide
  simp only [export_pipeline, h1, h2, h3, h4, Bool.not_true, Bool.false_eq_true, if_false]
  rw [hX, hrm]
  rfl

/-- A run that returns normally passed all four uncaught stages. -/
theorem isDone_export_pipeline (env : Env) (h : isDone (export_pipeline env).2 = true) :
    env.fp32ExportOk = true ∧ env.fp16ConvertOk = true ∧
    env.quantPreOk = true ∧ env.quantizeOk = true := by
  cases h1 : env.fp32ExportOk with
  | false => simp [export_pipeline, h1, isDone] at h
  | true =>
    cases h2 : env.fp16ConvertOk with
    | false => simp [export_pipeline, h1, h2, isDone] at h
    | true =>
      cases h3 : env.quantPreOk with
      | false => simp [export_pipeline, h1, h2, h3, isDone] at h
      | true =>
        cases h4 : env.quantizeOk with
        | false => simp [export_pipeline, h1, h2, h3, h4, isDone] at h
        | true => exact ⟨rfl, rfl, rfl, rfl⟩

/-- The ORT conversion loop never recreates `model_pre.onnx`. -/
theorem convertStep_preserves_no_pre (env : Env) (v : Variant) (fs : FS)
    (h : fs.hasFile MFile.preOnnx = false) :
    (if fs.hasFile (MFile.onnx v) then convert_to_ort (env.ortConvertOk v) v fs
     else fs).hasFile MFile.preOnnx = false := by
  split
  · rw [convert_to_ort_hasFile_of_ne _ _ _ _ (by simp) (by simp) (by simp) (by simp)
      (by simp) (by simp)]
    exact h
  · exact h

theorem postConvertFS_no_pre (env : Env) :
    (postConvertFS env).hasFile MFile.preOnnx = false := by
  unfold postConvertFS
  simp only [List.foldl]
  exact convertStep_preserves_no_pre env _ _
    (convertStep_preserves_no_pre env _ _ (convertStep_preserves_no_pre env _ _ (by decide)))

/-! ## C3: which failures are fatal after the baseline export -/

/-- Counterexample to C3 as stated: a run whose baseline FP32 export
succeeded (state BASELINE_EXPORTED reached) but whose FP16 conversion raises
terminates in FAILED — the FP16/quantization stages have no exception
handler in `Exporter.export`. -/
theorem post_baseline_failure_counterexample :
    fp16FailEnv.fp32ExportOk = true ∧
    (export_pipeline fp16FailEnv).2 = Outcome.failed FailStage.fp16Convert :=
  ⟨rfl, rfl⟩

/-- C3, corrected: failures of the FP16 conversion and of the two
quantization calls are still fatal after the baseline export; but once those
stages have succeeded, no later failure (per-variant ORT packaging,
validation) can terminate the run in FAILED. -/
theorem no_failed_after_quantization (env : Env) (st : FailStage)
    (h1 : env.fp32ExportOk = true) (h2 : env.fp16ConvertOk = true)
    (h3 : env.quantPreOk = true) (h4 : env.quantizeOk = true) :
    (export_pipeline env).2 ≠ Outcome.failed st := by
  rw [export_pipeline_done env h1 h2 h3 h4]
  simp

/-- Witness for C3's amended statement: with every ORT conversion subprocess
failing for the Int8 variant, the run still does not end in FAILED. -/
theorem no_failed_after_quantization_witness :
    (export_pipeline int8ConvFailEnv).2 ≠ Outcome.failed FailStage.quantizeStep :=
  no_failed_after_quantization int8ConvFailEnv FailStage.quantizeStep rfl rfl rfl rfl

/-! ## C5: lifetime of the `model_pre.onnx` intermediate -/

/-- Counterexample to C5 as stated: when `quantize_dynamic` raises, the
cleanup (`onnx_path_pre.unlink()`) is never reached — there is no
`try`/`finally` — so the run aborts with `model_pre.onnx` still on disk. -/
theorem pre_file_survives_quantize_failure_counterexample :
    (export_pipeline quantFailEnv).2 = Outcome.failed FailStage.quantizeStep ∧
    (export_pipeline quantFailEnv).1.hasFile MFile.preOnnx = true :=
  ⟨rfl, rfl⟩

/-- C5, corrected: the intermediate `model_pre.onnx` is deleted after the
dynamic-quantization step only on the success path; on every run that
completes, the intermediate file is absent from the export directory (but a
run aborted by a quantization failure leaves it behind). -/
theorem pre_file_absent_on_completed_run (env : Env)
    (h : isDone (export_pipeline env).2 = true) :
    (export_pipeline env).1.hasFile MFile.preOnnx = false := by
  obtain ⟨h1, h2, h3, h4⟩ := isDone_export_pipeline env h
  rw [export_pipeline_done env h1 h2 h3 h4]
  exact postConvertFS_no_pre env

/-- Witness for C5's amended statement on a fully successful run. -/
theorem pre_file_absent_on_completed_run_witness :
    (export_pipeline goodEnv).1.hasFile MFile.preOnnx = false :=
  pre_file_absent_on_completed_run goodEnv (by decide)

/-! ## Key structure of the metrics maps -/

theorem metricsStep_results_keys (env : Env) (fs : FS) (m : Metrics) (v : Variant) :
    (metricsStep env fs m v).results.map Prod.fst =
      m.results.map Prod.fst ++
        (if fs.hasFile (MFile.ortFile v) then [variantName v] else []) := by
  unfold metricsStep validate_onnx
  cases h : fs.hasFile (MFile.ortFile v) <;> simp [h]

theorem metricsStep_err_keys (env : Env) (fs : FS) (m : Metrics) (v : Variant) :
    (metricsStep env fs m v).error_rates.map Prod.fst =
      m.error_rates.map Prod.fst ++
        (if fs.hasFile (MFile.ortFile v) then [variantName v] else []) := by
  unfold metricsStep validate_onnx
  cases h : fs.hasFile (MFile.ortFile v) <;> simp [h]

theorem metricsStep_size_keys (env : Env) (fs : FS) (m : Metrics) (v : Variant) :
    (metricsStep env fs m v).sizes_mb.map Prod.fst =
      m.sizes_mb.map Prod.fst ++
        (if fs.hasFile (MFile.ortFile v) then [variantName v] else []) := by
  unfold metricsStep validate_onnx
  cases h : fs.hasFile (MFile.ortFile v) <;> simp [h]

theorem buildMetrics_results_keys (env : Env) (fs : FS) :
    (buildMetrics env fs).results.map Prod.fst = "PyTorch (FP32)" :: reportedVariants fs := by
  unfold buildMetrics reportedVariants
  rw [metricsStep_results_keys, metricsStep_results_keys, metricsStep_results_keys]
  cases h32 : fs.hasFile (MFile.ortFile Variant.fp32) <;>
    cases h16 : fs.hasFile (MFile.ortFile Variant.fp16) <;>
      cases h8 : fs.hasFile (MFile.ortFile Variant.int8) <;>
        simp [h32, h16, h8, List.filter]

theorem buildMetrics_err_keys (env : Env) (fs : FS) :
    (buildMetrics env fs).error_rates.map Prod.fst = "PyTorch (FP32)" :: reportedVariants fs := by
  unfold buildMetrics reportedVariants
  rw [metricsStep_err_keys, metricsStep_err_keys, metricsStep_err_keys]
  cases h32 : fs.hasFile (MFile.ortFile Variant.fp32) <;>
    cases h16 : fs.hasFile (MFile.ortFile Variant.fp16) <;>
      cases h8 : fs.hasFile (MFile.ortFile Variant.int8) <;>
        simp [h32, h16, h8, List.filter]

theorem buildMetrics_size_keys (env : Env) (fs : FS) :
    (buildMetrics env fs).sizes_mb.map Prod.fst = "PyTorch (FP32)" :: reportedVariants fs := by
  unfold buildMetrics reportedVariants
  rw [metricsStep_size_keys, metricsStep_size_keys, metricsStep_size_keys]
  cases h32 : fs.hasFile (MFile.ortFile Variant.fp32) <;>
    cases h16 : fs.hasFile (MFile.ortFile Variant.fp16) <;>
      cases h8 : fs.hasFile (MFile.ortFile Variant.int8) <;>
        simp [h32, h16, h8, List.filter]

theorem variantName_ne_baseline (v : Variant) : variantName v ≠ "PyTorch (FP32)" := by
  cases v <;> decide

theorem variantName_inj : ∀ a b : Variant, variantName a = variantName b → a = b := by
  intro a b
  cases a <;> cases b <;> decide

/-- A variant whose `.ort` file is missing names no row of the report. -/
theorem variantName_not_mem_reported (fs : FS) (v : Variant)
    (h : fs.hasFile (MFile.ortFile v) = false) :
    variantName v ∉ ("PyTorch (FP32)" :: reportedVariants fs) := by
  intro hmem
  rcases List.mem_cons.mp hmem with heq | hmem'
  · exact variantName_ne_baseline v heq
  · simp only [reportedVariants, List.mem_map, List.mem_filter] at hmem'
    obtain ⟨v', ⟨_, hv'⟩, heq⟩ := hmem'
    rw [variantName_inj v' v heq] at hv'
    rw [hv'] at h
    exact Bool.true_eq_false.mp h

/-! ## C6: a missing package file -/

/-- C6: for a package path missing on disk, `validate_onnx` returns `None`
(no exception), and the variant is entirely absent from the report's
results, error-rate and size maps. -/
theorem missing_package_skipped (env : Env) (fs : FS) (v : Variant)
    (h : fs.hasFile (MFile.ortFile v) = false) :
    validate_onnx (fs.hasFile (MFile.ortFile v)) (env.trainBatches v) (env.validBatches v) =
      none ∧
    variantName v ∉ (buildMetrics env fs).results.map Prod.fst ∧
    variantName v ∉ (buildMetrics env fs).error_rates.map Prod.fst ∧
    variantName v ∉ (buildMetrics env fs).sizes_mb.map Prod.fst := by
  refine ⟨by rw [h]; rfl, ?_, ?_, ?_⟩
  · rw [buildMetrics_results_keys]
    exact variantName_not_mem_reported fs v h
  · rw [buildMetrics_err_keys]
    exact variantName_not_mem_reported fs v h
  · rw [buildMetrics_size_keys]
    exact variantName_not_mem_reported fs v h

/-- Witness for C6: an empty export directory and the Int8 variant. -/
theorem missing_package_skipped_witness :
    validate_onnx (FS.hasFile [] (MFile.ortFile Variant.int8))
        (goodEnv.trainBatches Variant.int8) (goodEnv.validBatches Variant.int8) = none ∧
    variantName Variant.int8 ∉ (buildMetrics goodEnv []).results.map Prod.fst ∧
    variantName Variant.int8 ∉ (buildMetrics goodEnv []).error_rates.map Prod.fst ∧
    variantName Variant.int8 ∉ (buildMetrics goodEnv []).sizes_mb.map Prod.fst :=
  missing_package_skipped goodEnv [] Variant.int8 rfl

/-! ## C7: the three metrics maps have the same keys -/

/-- C7: the key lists of `results`, `error_rates` and `sizes_mb` coincide
for every metrics dict the pipeline builds, and a variant with a missing
package file appears in none of them. -/
theorem report_key_sets_coincide (env : Env) (fs : FS) (v : Variant)
    (h : fs.hasFile (MFile.ortFile v) = false) :
    (buildMetrics env fs).results.map Prod.fst =
      (buildMetrics env fs).error_rates.map Prod.fst ∧
    (buildMetrics env fs).error_rates.map Prod.fst =
      (buildMetrics env fs).sizes_mb.map Prod.fst ∧
    variantName v ∉ (buildMetrics env fs).results.map Prod.fst := by
  refine ⟨?_, ?_, ?_⟩
  · rw [buildMetrics_results_keys, buildMetrics_err_keys]
  · rw [buildMetrics_err_keys, buildMetrics_size_keys]
  · rw [buildMetrics_results_keys]
    exact variantName_not_mem_reported fs v h

/-- Witness for C7 on a concrete run state. -/
theorem report_key_sets_coincide_witness :
    (buildMetrics goodEnv preFoldFS).results.map Prod.fst =
      (buildMetrics goodEnv preFoldFS).error_rates.map Prod.fst ∧
    (buildMetrics goodEnv preFoldFS).error_rates.map Prod.fst =
      (buildMetrics goodEnv preFoldFS).sizes_mb.map Prod.fst ∧
    variantName Variant.fp32 ∉ (buildMetrics goodEnv preFoldFS).results.map Prod.fst :=
  report_key_sets_coincide goodEnv preFoldFS Variant.fp32 rfl

/-! ## C4: a failing ORT conversion subprocess is isolated -/

/-- C4: a failing conversion subprocess makes `_convert_to_ort` log and
return without raising and without touching the directory, and with only the
Int8 conversion failing the pipeline still completes with the FP32 and FP16
variants present in all three report maps (and Int8 in none). -/
theorem ort_conversion_failure_isolated (env : Env) (v : Variant) (fs : FS)
    (h1 : env.fp32ExportOk = true) (h2 : env.fp16ConvertOk = true)
    (h3 : env.quantPreOk = true) (h4 : env.quantizeOk = true)
    (h5 : env.ortConvertOk Variant.fp32 = true) (h6 : env.ortConvertOk Variant.fp16 = true)
    (h7 : env.ortConvertOk Variant.int8 = false) :
    convert_to_ort false v fs = fs ∧
    isDone (export_pipeline env).2 = true ∧
    "ORT (FP32)" ∈ doneResultsKeys (export_pipeline env).2 ∧
    "ORT (FP16)" ∈ doneResultsKeys (export_pipeline env).2 ∧
    "ORT (FP32)" ∈ doneErrKeys (export_pipeline env).2 ∧
    "ORT (FP16)" ∈ doneErrKeys (export_pipeline env).2 ∧
    "ORT (FP32)" ∈ doneSizeKeys (export_pipeline env).2 ∧
    "ORT (FP16)" ∈ doneSizeKeys (export_pipeline env).2 ∧
    "ORT (Int8)" ∉ doneResultsKeys (export_pipeline env).2 := by
  have hfs : postConvertFS env =
      [MFile.opConfig Variant.fp16, MFile.ortFile Variant.fp16,
       MFile.opConfig Variant.fp32, MFile.ortFile Variant.fp32, MFile.onnx Variant.int8] := by
    simp only [postConvertFS, List.foldl, h5, h6, h7]
    decide
  rw [export_pipeline_done env h1 h2 h3 h4]
  have hrep : reportedVariants (postConvertFS env) = ["ORT (FP32)", "ORT (FP16)"] := by
    rw [hfs]; decide
  refine ⟨rfl, rfl, ?_, ?_, ?_, ?_, ?_, ?_, ?_⟩ <;>
    simp [doneResultsKeys, doneErrKeys, doneSizeKeys, buildMetrics_results_keys,
      buildMetrics_err_keys, buildMetrics_size_keys, hrep]

/-! ## The string comparator used to model Python's `sorted` -/

theorem charListLe_total : ∀ x y : List Char, charListLe x y = true ∨ charListLe y x = true := by
  intro x
  induction x with
  | nil => intro y; left; rfl
  | cons a as ih =>
    intro y
    cases y with
    | nil => right; rfl
    | cons b bs =>
      rcases lt_trichotomy a b with h | h | h
      · left; simp [charListLe, h]
      · subst h
        rcases ih bs with h' | h'
        · left; simp [charListLe, lt_irrefl, h']
        · right; simp [charListLe, lt_irrefl, h']
      · right; simp [charListLe, h]

theorem charListLe_trans :
    ∀ x y z : List Char, charListLe x y = true → charListLe y z = true →
      charListLe x z = true := by
  intro x
  induction x with
  | nil => intro y z _ _; rfl
  | cons a as ih =>
    intro y z hxy hyz
    cases y with
    | nil => simp [charListLe] at hxy
    | cons b bs =>
      cases z with
      | nil => simp [charListLe] at hyz
      | cons c cs =>
        rcases lt_trichotomy a b with hab | hab | hab
        · rcases lt_trichotomy b c with hbc | hbc | hbc
          · simp [charListLe, lt_trans hab hbc]
          · subst hbc; simp [charListLe, hab]
          · simp [charListLe, lt_asymm hbc, hbc] at hyz
        · subst hab
          simp only [charListLe, lt_irrefl, if_false] at hxy
          rcases lt_trichotomy a c with hac | hac | hac
          · simp [charListLe, hac]
          · subst hac
            simp only [charListLe, lt_irrefl, if_false] at hyz ⊢
            exact ih bs cs hxy hyz
          · simp [charListLe, lt_asymm hac, hac] at hyz
        · simp [charListLe, lt_asymm hab, hab] at hxy

theorem charListLe_antisymm :
    ∀ x y : List Char, charListLe x y = true → charListLe y x = true → x = y := by
  intro x
  induction x with
  | nil =>
    intro y _ hyx
    cases y with
    | nil => rfl
    | cons b bs => simp [charListLe] at hyx
  | cons a as ih =>
    intro y hxy hyx
    cases y with
    | nil => simp [charListLe] at hxy
    | cons b bs =>
      rcases lt_trichotomy a b with h | h | h
      · simp [charListLe, h, lt_asymm h] at hyx
      · subst h
        simp only [charListLe, lt_irrefl, if_false] at hxy hyx
        rw [ih bs hxy hyx]
      · simp [charListLe, h, lt_asymm h] at hxy

theorem strLeP_total : ∀ a b : String, strLeP a b ∨ strLeP b a := fun a b =>
  charListLe_total a.data b.data

theorem strLeP_trans : ∀ a b c : String, strLeP a b → strLeP b c → strLeP a c :=
  fun a b c hab hbc => charListLe_trans a.data b.data c.data hab hbc

theorem strLeP_antisymm : ∀ a b : String, strLeP a b → strLeP b a → a = b :=
  fun a b hab hba => String.ext (charListLe_antisymm a.data b.data hab hba)

/-- The model rows are produced in sorted (lexicographic) key order. -/
theorem sortedModels_sorted (m : Metrics) : List.Sorted strLeP (sortedModels m) :=
  @List.sorted_insertionSort String strLeP _ ⟨strLeP_total⟩ ⟨strLeP_trans⟩ _

theorem sortedModels_perm (m : Metrics) :
    (sortedModels m).Perm (m.error_rates.map Prod.fst) :=
  List.perm_insertionSort _ _

theorem sorted_eq_of_perm {l₁ l₂ : List String} (p : l₁.Perm l₂)
    (s₁ : List.Sorted strLeP l₁) (s₂ : List.Sorted strLeP l₂) : l₁ = l₂ :=
  @List.eq_of_perm_of_sorted String strLeP ⟨strLeP_antisymm⟩ l₁ l₂ p s₁ s₂

/-- Association-list lookup (a Python dict read) is insensitive to entry
order when the keys are distinct. -/
theorem lookup_eq_of_perm {β : Type} :
    ∀ {l₁ l₂ : List (String × β)}, l₁.Perm l₂ → (l₁.map Prod.fst).Nodup →
      ∀ k, l₁.lookup k = l₂.lookup k := by
  intro l₁ l₂ p
  induction p with
  | nil => intro _ k; rfl
  | cons x p ih =>
    intro nd k
    obtain ⟨a, b⟩ := x
    simp only [List.lookup_cons]
    cases hk : (k == a) with
    | true => rfl
    | false =>
      simp only [List.map_cons] at nd
      exact ih (List.nodup_cons.mp nd).2 k
  | swap x y l =>
    intro nd k
    obtain ⟨a, b⟩ := x
    obtain ⟨c, d⟩ := y
    have hca : c ≠ a := by
      simp only [List.map_cons] at nd
      have h1 := (List.nodup_cons.mp nd).1
      intro h
      exact h1 (h ▸ List.mem_cons_self _ _)
    by_cases h1 : k = c
    · subst h1
      have : (k == a) = false := beq_eq_false_iff_ne.mpr hca
      simp [List.lookup_cons, this]
    · by_cases h2 : k = a
      · subst h2
        have hc : (k == c) = false := beq_eq_false_iff_ne.mpr h1
        simp [List.lookup_cons, hc]
      · have hc : (k == c) = false := beq_eq_false_iff_ne.mpr h1
        have ha : (k == a) = false := beq_eq_false_iff_ne.mpr h2
        simp [List.lookup_cons, hc, ha]
  | trans p1 p2 ih1 ih2 =>
    intro nd k
    rw [ih1 nd k, ih2 ((p1.map Prod.fst).nodup nd) k]

/-- C8: `get_notes` is a function of the map contents only — permuting the
insertion order of the `error_rates` and `sizes_mb` entries (keys distinct,
as in a Python dict) produces a byte-identical summary — and its rows are
emitted in sorted key order. -/
theorem get_notes_deterministic (name : String) (labels : List String) (m₁ m₂ : Metrics)
    (hperm : m₁.error_rates.Perm m₂.error_rates)
    (hperm2 : m₁.sizes_mb.Perm m₂.sizes_mb)
    (hnd : (m₁.error_rates.map Prod.fst).Nodup)
    (hnd2 : (m₁.sizes_mb.map Prod.fst).Nodup)
    (hts : m₁.train_samples = m₂.train_samples)
    (hvs : m₁.valid_samples = m₂.valid_samples) :
    get_notes name labels m₁ = get_notes name labels m₂ ∧
    List.Sorted strLeP (sortedModels m₁) := by
  have hsm : sortedModels m₁ = sortedModels m₂ :=
    sorted_eq_of_perm
      ((sortedModels_perm m₁).trans ((hperm.map Prod.fst).trans (sortedModels_perm m₂).symm))
      (sortedModels_sorted m₁) (sortedModels_sorted m₂)
  have hrow : noteRow m₁ = noteRow m₂ := by
    funext k
    unfold noteRow rowErr rowSize
    rw [lookup_eq_of_perm hperm hnd k, lookup_eq_of_perm hperm2 hnd2 k]
  refine ⟨?_, sortedModels_sorted m₁⟩
  unfold get_notes noteLines
  rw [hsm, hrow, hts, hvs]

/-- Witness for C8: two metrics dicts with the same entries inserted in
opposite orders give byte-identical notes. -/
theorem get_notes_deterministic_witness :
    get_notes "resnet18" ["rail", "road"] metricsA =
      get_notes "resnet18" ["rail", "road"] metricsB ∧
    List.Sorted strLeP (sortedModels metricsA) :=
  get_notes_deterministic "resnet18" ["rail", "road"] metricsA metricsB
    (List.Perm.swap _ _ _) (List.Perm.swap _ _ _) (by decide) (by decide) rfl rfl

/-! ## Evaluation of the fixed-point formatting -/

theorem formatFixed2_eval (q : ℚ) (n : ℕ) (h0 : ¬ q < 0)
    (h : roundHalfEven (q * 100) = (n : ℤ)) :
    formatFixed2 q = toString (n / 100) ++ "." ++ twoDigits (n % 100) := by
  unfold formatFixed2 formatFixed2Nonneg
  rw [if_neg h0, h]
  norm_num

theorem formatFixed2_zero : formatFixed2 (0 : ℚ) = "0.00" := by
  rw [formatFixed2_eval 0 0 (by norm_num) (by norm_num [roundHalfEven])]
  rfl

theorem formatPercent2_eval_example : formatPercent2 (2/25 : ℚ) = "8.00%" := by
  unfold formatPercent2
  rw [formatFixed2_eval ((2/25 : ℚ) * 100) 800 (by norm_num) (by norm_num [roundHalfEven])]
  rfl

theorem formatFixed2_eval_example : formatFixed2 (45 : ℚ) = "45.00" := by
  rw [formatFixed2_eval 45 4500 (by norm_num) (by norm_num [roundHalfEven])]
  rfl

theorem digitChar_isDigit (d : ℕ) (h : d < 10) : (Nat.digitChar d).isDigit = true := by
  interval_cases d <;> decide

theorem twoDigits_length (n : ℕ) : (twoDigits n).length = 2 := rfl

theorem twoDigits_digits (n : ℕ) : ∀ c ∈ (twoDigits n).data, c.isDigit = true := by
  intro c hc
  have hc' : c = Nat.digitChar (n / 10 % 10) ∨ c = Nat.digitChar (n % 10) := by
    simpa [twoDigits] using hc
  rcases hc' with rfl | rfl
  · exact digitChar_isDigit _ (Nat.mod_lt _ (by norm_num))
  · exact digitChar_isDigit _ (Nat.mod_lt _ (by norm_num))

/-- `f"{q:.2f}"` always renders as an integer part, a point, and exactly two
digits. -/
theorem formatFixed2_decomp (q : ℚ) :
    ∃ (ip : String) (n : ℕ), formatFixed2 q = ip ++ "." ++ twoDigits n := by
  simp only [formatFixed2, formatFixed2Nonneg]
  split
  · refine ⟨"-" ++ toString ((roundHalfEven (-q * 100)).toNat / 100),
      (roundHalfEven (-q * 100)).toNat % 100, ?_⟩
    simp [String.append_assoc]
  · exact ⟨toString ((roundHalfEven (q * 100)).toNat / 100),
      (roundHalfEven (q * 100)).toNat % 100, rfl⟩

/-- Each table row renders the error rate as a two-decimal percentage and
the size as a two-decimal number. -/
theorem noteRow_decomp (m : Metrics) (k : String) :
    ∃ ip fp sp gp : String,
      noteRow m k = "| " ++ k ++ " | " ++ ip ++ "." ++ fp ++ "%" ++ " | " ++
        sp ++ "." ++ gp ++ " |" ∧
      fp.length = 2 ∧ gp.length = 2 ∧
      (∀ c ∈ fp.data, c.isDigit = true) ∧ (∀ c ∈ gp.data, c.isDigit = true) := by
  obtain ⟨ipE, nE, hE⟩ := formatFixed2_decomp (rowErr m k * 100)
  obtain ⟨ipS, nS, hS⟩ := formatFixed2_decomp (rowSize m k)
  refine ⟨ipE, twoDigits nE, ipS, twoDigits nS, ?_, twoDigits_length nE, twoDigits_length nS,
    twoDigits_digits nE, twoDigits_digits nS⟩
  unfold noteRow formatPercent2
  rw [hE, hS]
  simp [String.append_assoc]

/-- After the header and the table rows, the notes end with the dataset info
block: the training-samples line, then the validation-samples line, then the
labels line. -/
theorem noteLines_drop (name : String) (labels : List String) (m : Metrics) :
    (noteLines name labels m).drop (3 + (sortedModels m).length) =
      ["\n**Dataset Info:**",
       "- Training Samples: " ++ toString m.train_samples,
       "- Validation Samples: " ++ toString m.valid_samples,
       "- Labels: " ++ String.intercalate ", " labels] := by
  unfold noteLines
  rw [show 3 + (sortedModels m).length =
      (noteHeader name ++ (sortedModels m).map (noteRow m)).length from by
    simp [noteHeader]
    omega]
  exact List.drop_left _ _

theorem noteRow_mem_noteLines (name : String) (labels : List String) (m : Metrics)
    (k : String) (hk : k ∈ sortedModels m) :
    noteRow m k ∈ noteLines name labels m := by
  unfold noteLines
  exact List.mem_append.mpr (Or.inl (List.mem_append.mpr
    (Or.inr (List.mem_map.mpr ⟨k, hk, rfl⟩))))

/-- C9, corrected: every rendered row shows the error rate as a percentage
with two decimal digits and the size with two decimal digits, and the table
is followed by the dataset info block with the `- Training Samples:` line
first and the `- Validation Samples:` line second (the order the code emits,
opposite to the claim's). -/
theorem summary_rows_two_decimals_and_dataset_lines (name : String) (labels : List String)
    (m : Metrics) (k : String) (hk : k ∈ sortedModels m) :
    (∃ ip fp sp gp : String,
      noteRow m k = "| " ++ k ++ " | " ++ ip ++ "." ++ fp ++ "%" ++ " | " ++
        sp ++ "." ++ gp ++ " |" ∧
      fp.length = 2 ∧ gp.length = 2 ∧
      (∀ c ∈ fp.data, c.isDigit = true) ∧ (∀ c ∈ gp.data, c.isDigit = true)) ∧
    noteRow m k ∈ noteLines name labels m ∧
    (noteLines name labels m).drop (3 + (sortedModels m).length) =
      ["\n**Dataset Info:**",
       "- Training Samples: " ++ toString m.train_samples,
       "- Validation Samples: " ++ toString m.valid_samples,
       "- Labels: " ++ String.intercalate ", " labels] :=
  ⟨noteRow_decomp m k, noteRow_mem_noteLines name labels m k hk, noteLines_drop name labels m⟩

/-- Witness for C9's amended statement at the spec's example scenario. -/
theorem summary_rows_two_decimals_and_dataset_lines_witness :
    (∃ ip fp sp gp : String,
      noteRow exampleMetrics "PyTorch (FP32)" = "| " ++ "PyTorch (FP32)" ++ " | " ++
        ip ++ "." ++ fp ++ "%" ++ " | " ++ sp ++ "." ++ gp ++ " |" ∧
      fp.length = 2 ∧ gp.length = 2 ∧
      (∀ c ∈ fp.data, c.isDigit = true) ∧ (∀ c ∈ gp.data, c.isDigit = true)) ∧
    noteRow exampleMetrics "PyTorch (FP32)" ∈
      noteLines "resnet18" ["rail", "road"] exampleMetrics ∧
    (noteLines "resnet18" ["rail", "road"] exampleMetrics).drop
        (3 + (sortedModels exampleMetrics).length) =
      ["\n**Dataset Info:**",
       "- Training Samples: " ++ toString exampleMetrics.train_samples,
       "- Validation Samples: " ++ toString exampleMetrics.valid_samples,
       "- Labels: " ++ String.intercalate ", " ["rail", "road"]] :=
  summary_rows_two_decimals_and_dataset_lines "resnet18" ["rail", "road"]
    exampleMetrics "PyTorch (FP32)" (by decide)

/-! ## Concrete evaluation of the example notes -/

theorem sortedModels_example : sortedModels exampleMetrics = ["PyTorch (FP32)"] := by decide

theorem noteRow_example :
    noteRow exampleMetrics "PyTorch (FP32)" = "| PyTorch (FP32) | 8.00% | 45.00 |" := by
  have h1 : rowErr exampleMetrics "PyTorch (FP32)" = 2/25 := rfl
  have h2 : rowSize exampleMetrics "PyTorch (FP32)" = 45 := rfl
  unfold noteRow
  rw [h1, h2, formatPercent2_eval_example, formatFixed2_eval_example]
  rfl

theorem noteLines_example :
    noteLines "resnet18" ["rail", "road"] exampleMetrics =
      ["# resnet18 Exported Model\n",
       "| Model | Error Rate | Size (MB) |",
       "| --- | --- | --- |",
       "| PyTorch (FP32) | 8.00% | 45.00 |",
       "\n**Dataset Info:**",
       "- Training Samples: 200",
       "- Validation Samples: 50",
       "- Labels: rail, road"] := by
  unfold noteLines noteHeader
  rw [sortedModels_example]
  simp only [List.map_cons, List.map_nil, noteRow_example]
  decide

/-- Counterexample to C9 as stated: both dataset lines are present in the
generated summary, but the `- Validation Samples:` line does not precede the
`- Training Samples:` line — the code emits the training line first. -/
theorem summary_line_order_counterexample :
    "- Validation Samples: 50" ∈ noteLines "resnet18" ["rail", "road"] exampleMetrics ∧
    "- Training Samples: 200" ∈ noteLines "resnet18" ["rail", "road"] exampleMetrics ∧
    ¬ ((noteLines "resnet18" ["rail", "road"] exampleMetrics).indexOf
          "- Validation Samples: 50" <
        (noteLines "resnet18" ["rail", "road"] exampleMetrics).indexOf
          "- Training Samples: 200") := by
  rw [noteLines_example]
  exact ⟨by decide, by decide, by decide⟩

/-! ## C10: a variant with no size entry -/

/-- C10: a variant key present in `error_rates` but absent from `sizes_mb`
does not make `get_notes` fail — its row is rendered with the defaulted
size 0, displayed as `0.00`. -/
theorem missing_size_defaults_to_zero (name : String) (labels : List String)
    (m : Metrics) (k : String)
    (h1 : k ∈ m.error_rates.map Prod.fst) (h2 : m.sizes_mb.lookup k = none) :
    noteRow m k = "| " ++ k ++ " | " ++ formatPercent2 (rowErr m k) ++ " | " ++
      "0.00" ++ " |" ∧
    noteRow m k ∈ noteLines name labels m := by
  constructor
  · unfold noteRow rowSize
    rw [h2]
    simp [Option.getD_none, formatFixed2_zero]
  · exact noteRow_mem_noteLines name labels m k ((sortedModels_perm m).mem_iff.mpr h1)

/-- Witness for C10: `metricsC` has `ORT (FP16)` in `error_rates` only. -/
theorem missing_size_defaults_to_zero_witness :
    noteRow metricsC "ORT (FP16)" = "| " ++ "ORT (FP16)" ++ " | " ++
      formatPercent2 (rowErr metricsC "ORT (FP16)") ++ " | " ++ "0.00" ++ " |" ∧
    noteRow metricsC "ORT (FP16)" ∈ noteLines "resnet18" ["rail", "road"] metricsC :=
  missing_size_defaults_to_zero "resnet18" ["rail", "road"] metricsC "ORT (FP16)"
    (by decide) rfl

/-- Witness for C4 at the concrete environment where only the Int8
conversion subprocess fails. -/
theorem ort_conversion_failure_isolated_witness :
    convert_to_ort false Variant.int8 preFoldFS = preFoldFS ∧
    isDone (export_pipeline int8ConvFailEnv).2 = true ∧
    "ORT (FP32)" ∈ doneResultsKeys (export_pipeline int8ConvFailEnv).2 ∧
    "ORT (FP16)" ∈ doneResultsKeys (export_pipeline int8ConvFailEnv).2 ∧
    "ORT (FP32)" ∈ doneErrKeys (export_pipeline int8ConvFailEnv).2 ∧
    "ORT (FP16)" ∈ doneErrKeys (export_pipeline int8ConvFailEnv).2 ∧
    "ORT (FP32)" ∈ doneSizeKeys (export_pipeline int8ConvFailEnv).2 ∧
    "ORT (FP16)" ∈ doneSizeKeys (export_pipeline int8ConvFailEnv).2 ∧
    "ORT (Int8)" ∉ doneResultsKeys (export_pipeline int8ConvFailEnv).2 :=
  ort_conversion_failure_isolated int8ConvFailEnv Variant.int8 preFoldFS
    rfl rfl rfl rfl rfl rfl rfl

end Rails49
